import Mathlib

/-!
Verification development for the AI-Workbench task-automation repository.

The Python sources (agent_manager.py, db.py, tool_email.py, tool_data.py,
models.py, auth.py) are shallowly embedded below.  Python strings are
modelled as lists of characters, Python JSON-like values as the inductive
type `Val`, stateful execution as explicit state passing, and fallible
code (Python exceptions such as StopIteration / AttributeError / KeyError /
TypeError) as `Except PyErr`.  External collaborators (the pandas file
parser, the SMTP transport, the optional Portia tool registry, and the
wall clock) are passed in through the explicit environment `Env`; the
in-repository control flow around them is embedded verbatim.
-/

namespace Workbench

/-- Python strings are modelled as lists of characters. -/
abbrev Str := List Char

/-- Conversion from a Lean string literal to the character-list model. -/
def pstr (s : String) : Str := s.data

/-- The opening curly-brace character, built from its code point. -/
def braceL : Char := Char.ofNat 123

/-- The closing curly-brace character, built from its code point. -/
def braceR : Char := Char.ofNat 125

/-- The single-quote character used by Python `repr` of strings. -/
def squote : Char := Char.ofNat 39

/-- JSON-like Python values as they occur in this repository: `None`,
booleans, strings, integers, dicts (modelled as insertion-ordered field
lists; Python dicts have unique keys) and lists.  The repository never
manipulates floats except inside formatted report strings, which are kept
symbolic (see `EmailBody.report`). -/
inductive Val where
  | vnone : Val
  | vbool (b : Bool) : Val
  | vstr (s : Str) : Val
  | vnum (n : Int) : Val
  | vdict (fields : List (Str × Val)) : Val
  | vlist (items : List Val) : Val

/-- Python truthiness of a value (`bool(v)`). -/
def truthy : Val → Bool
  | .vnone => false
  | .vbool b => b
  | .vstr s => !s.isEmpty
  | .vnum n => decide (n ≠ 0)
  | .vdict f => !f.isEmpty
  | .vlist l => !l.isEmpty

/-- First-match lookup in an ordered field list (Python dict indexing;
real Python dicts have unique keys, so first match is the match). -/
def lookupField : List (Str × Val) → Str → Option Val
  | [], _ => none
  | kv :: rest, k => if kv.1 = k then some kv.2 else lookupField rest k

/-- Identities and request bodies are Python dicts; we model the ones the
code always treats as dicts directly by their field lists. -/
abbrev Ident := List (Str × Val)

/-- Python `d.get(key, default)` on a dict known to be a dict. -/
def pyGetD (f : Ident) (k : Str) (d : Val) : Val := (lookupField f k).getD d

/-- Field projection used in theorem statements: the value stored under a
key of a dict value, if any. -/
def pyGetV (v : Val) (k : Str) : Option Val :=
  match v with
  | .vdict f => lookupField f k
  | _ => none

/-- Python exceptions that the embedded code can raise. -/
inductive PyErr where
  | stopIteration : PyErr
  | attributeError : PyErr
  | typeError : PyErr
  | keyError : PyErr
deriving DecidableEq

/-- Python `v.get(key, default)`: raises AttributeError when `v` is not a
dict (e.g. `None.get`). -/
def pyDictGet (v : Val) (k : Str) (d : Val) : Except PyErr Val :=
  match v with
  | .vdict f => .ok ((lookupField f k).getD d)
  | _ => .error .attributeError

/-- Python dict item assignment `d[k] = v`: updates the value in place
when the key exists (dicts have unique keys), otherwise appends. -/
def pySet : List (Str × Val) → Str → Val → List (Str × Val)
  | [], k, v => [(k, v)]
  | kv :: rest, k, v => if kv.1 = k then (k, v) :: rest else kv :: pySet rest k v

mutual

/-- Python `repr` of a value (used only inside f-string task texts). -/
def pyReprOf : Val → Str
  | .vnone => pstr (r"None")
  | .vbool b => if b then pstr (r"True") else pstr (r"False")
  | .vstr s => squote :: s ++ [squote]
  | .vnum n => (toString n).data
  | .vdict f => braceL :: reprFields f ++ [braceR]
  | .vlist l => '[' :: reprItems l ++ [']']

/-- Comma-separated `repr` of dict fields. -/
def reprFields : List (Str × Val) → Str
  | [] => []
  | [kv] => squote :: kv.1 ++ [squote] ++ pstr (r": ") ++ pyReprOf kv.2
  | kv :: rest => squote :: kv.1 ++ [squote] ++ pstr (r": ") ++ pyReprOf kv.2 ++ pstr (r", ") ++ reprFields rest

/-- Comma-separated `repr` of list items. -/
def reprItems : List Val → Str
  | [] => []
  | [v] => pyReprOf v
  | v :: rest => pyReprOf v ++ pstr (r", ") ++ reprItems rest

end

/-- Python `str(v)`: strings are rendered bare, everything else as `repr`. -/
def pyStrOf : Val → Str
  | .vstr s => s
  | v => pyReprOf v

mutual

/-- Python `==` on values, covering the shapes that occur in this
repository (scalars, strings, and structural containers; dict comparison
follows the insertion order the code builds them in). -/
def pyEqVal : Val → Val → Bool
  | .vnone, .vnone => true
  | .vstr a, .vstr b => decide (a = b)
  | .vbool a, .vbool b => decide (a = b)
  | .vbool a, .vnum m => decide ((if a then (1 : Int) else 0) = m)
  | .vnum n, .vbool b => decide (n = (if b then (1 : Int) else 0))
  | .vnum n, .vnum m => decide (n = m)
  | .vlist a, .vlist b => pyEqItems a b
  | .vdict a, .vdict b => pyEqFields a b
  | _, _ => false

/-- Pointwise Python `==` on lists. -/
def pyEqItems : List Val → List Val → Bool
  | [], [] => true
  | a :: xs, b :: ys => pyEqVal a b && pyEqItems xs ys
  | _, _ => false

/-- Pointwise Python `==` on dict field lists. -/
def pyEqFields : List (Str × Val) → List (Str × Val) → Bool
  | [], [] => true
  | a :: xs, b :: ys => decide (a.1 = b.1) && pyEqVal a.2 b.2 && pyEqFields xs ys
  | _, _ => false

end

/-- Whether a value is a Python dict (`isinstance(v, dict)`). -/
def isDictV : Val → Bool
  | .vdict _ => true
  | _ => false

/-! String keys and identifiers appearing in the sources. -/

/-- Key `username`. -/
def kUsername : Str := pstr (r"username")

/-- Key `file_path`. -/
def kFilePath : Str := pstr (r"file_path")

/-- Key `to`. -/
def kTo : Str := pstr (r"to")

/-- Key `subject`. -/
def kSubject : Str := pstr (r"subject")

/-- Key `body`. -/
def kBody : Str := pstr (r"body")

/-- Key `approved`. -/
def kApproved : Str := pstr (r"approved")

/-- Key `status`. -/
def kStatus : Str := pstr (r"status")

/-- Key `reason`. -/
def kReason : Str := pstr (r"reason")

/-- Key `message`. -/
def kMessage : Str := pstr (r"message")

/-- Key `reviewer`. -/
def kReviewer : Str := pstr (r"reviewer")

/-- Key `timestamp`. -/
def kTimestamp : Str := pstr (r"timestamp")

/-- Key `clarification_id`. -/
def kClarificationId : Str := pstr (r"clarification_id")

/-- Key `error`. -/
def kError : Str := pstr (r"error")

/-- Key `source`. -/
def kSource : Str := pstr (r"source")

/-- Key `summary`. -/
def kSummary : Str := pstr (r"summary")

/-- Key `query`. -/
def kQuery : Str := pstr (r"query")

/-- Key `params`. -/
def kParams : Str := pstr (r"params")

/-- Key `limit`. -/
def kLimit : Str := pstr (r"limit")

/-- Key `search_term`. -/
def kSearchTerm : Str := pstr (r"search_term")

/-- Key `first_name`. -/
def kFirstName : Str := pstr (r"first_name")

/-- Key `last_name`. -/
def kLastName : Str := pstr (r"last_name")

/-- Key `email`. -/
def kEmail : Str := pstr (r"email")

/-- Key `company`. -/
def kCompany : Str := pstr (r"company")

/-- Key `from`. -/
def kFrom : Str := pstr (r"from")

/-- Key `host`. -/
def kHost : Str := pstr (r"host")

/-- Key `port`. -/
def kPort : Str := pstr (r"port")

/-- Key `security`. -/
def kSecurity : Str := pstr (r"security")

/-- Key `recipient`. -/
def kRecipient : Str := pstr (r"recipient")

/-- Key `data_summary`. -/
def kDataSummary : Str := pstr (r"data_summary")

/-- Key `type`. -/
def kType : Str := pstr (r"type")

/-- Key `data_preview`. -/
def kDataPreview : Str := pstr (r"data_preview")

/-- Key `user`. -/
def kUser : Str := pstr (r"user")

/-- Output identifier `data_analysis`. -/
def kDataAnalysis : Str := pstr (r"data_analysis")

/-- Output identifier `review_approval`. -/
def kReviewApproval : Str := pstr (r"review_approval")

/-- Output identifier `email_status`. -/
def kEmailStatus : Str := pstr (r"email_status")

/-- Output identifier `database_results`. -/
def kDatabaseResults : Str := pstr (r"database_results")

/-- Output identifier `crm_contacts`. -/
def kCrmContacts : Str := pstr (r"crm_contacts")

/-- Output identifier `new_lead`. -/
def kNewLead : Str := pstr (r"new_lead")

/-- Output identifier `integration_tests`. -/
def kIntegrationTests : Str := pstr (r"integration_tests")

/-- Tool identifier `fetch_and_summarize_data`. -/
def idFetch : Str := pstr (r"fetch_and_summarize_data")

/-- Tool identifier `human_review_clarification`. -/
def idReview : Str := pstr (r"human_review_clarification")

/-- Tool identifier `send_email`. -/
def idSend : Str := pstr (r"send_email")

/-- Tool identifier `test_integrations`. -/
def idTest : Str := pstr (r"test_integrations")

/-- Tool-identifier pattern piece `query_`. -/
def qPre : Str := pstr (r"query_")

/-- Tool-identifier pattern piece `_database`. -/
def dbSuf : Str := pstr (r"_database")

/-- Tool-identifier pattern piece `get_`. -/
def getPre : Str := pstr (r"get_")

/-- Tool-identifier pattern piece `create_`. -/
def createPre : Str := pstr (r"create_")

/-- CRM name `salesforce`. -/
def sfStr : Str := pstr (r"salesforce")

/-- CRM name `hubspot`. -/
def hsStr : Str := pstr (r"hubspot")

/-- CRM name `zendesk`. -/
def zdStr : Str := pstr (r"zendesk")

/-- The fixed email subject used by both plan builders. -/
def subjStr : Str := pstr (r"Data Analysis Report - AI Workbench")

/-- The placeholder body value `${data_analysis}`. -/
def phDataAnalysis : Str := pstr (r"${data_analysis}")

/-- The placeholder value `${review_approval}`. -/
def phReviewApproval : Str := pstr (r"${review_approval}")

/-! Data model from models.py and agent_manager.py. -/

/-- A plan step (models.py `SimpleStep`, and the step records fed to the
Portia plan builder): task text, tool identifier, output identifier,
ordered named inputs, optional description.  The `status`/`created_at`
bookkeeping fields are never read by the executor and are omitted. -/
structure Step where
  task : Str
  tool_id : Str
  output : Str
  inputs : List (Str × Val)
  description : Option Str

/-- A plan (models.py `Plan`): opaque identifier (modelled as a number
supplied by the environment in place of `uuid4()`), steps, owning user,
query.  The `created_at`/`status`/`metadata` fields are never read by the
executor or the store's ownership checks and are omitted. -/
structure Plan where
  id : Nat
  steps : List Step
  user : Val
  query : Val

/-- Execution state (agent_manager.py `ExecutionState`): the plan, the
acting user, and the append-only list of `{output, data}` result records,
modelled as ordered pairs. -/
structure ExecState where
  plan : Plan
  user : Val
  results : List (Str × Val)

/-- Method `ExecutionState.add_result` (agent_manager.py lines 182-183): append
unconditionally. -/
def add_result (st : ExecState) (output_id : Str) (data : Val) : ExecState :=
  { st with results := st.results ++ [(output_id, data)] }

/-- Method `ExecutionState.get_result` (agent_manager.py lines 185-189): scan the
result list front to back and return the data of the first record whose
output identifier matches; `None` when there is no match. -/
def get_result : List (Str × Val) → Str → Val
  | [], _ => .vnone
  | r :: rest, k => if r.1 = k then r.2 else get_result rest k

/-! Plan store, from db.py. -/

/-- The in-memory plan store `plan_store`, a dict keyed by plan id. -/
abbrev Store := List (Nat × ExecState)

/-- Dict lookup in the store. -/
def storeLookup : Store → Nat → Option ExecState
  | [], _ => none
  | kv :: rest, k => if kv.1 = k then some kv.2 else storeLookup rest k

/-- Function `save_plan` (db.py lines 4-5): `plan_store[state.plan.id] = state`. -/
def save_plan : Store → ExecState → Store
  | [], st => [(st.plan.id, st)]
  | kv :: rest, st => if kv.1 = st.plan.id then (kv.1, st) :: rest else kv :: save_plan rest st

/-- The owner lookup of db.py lines 11-15: `state.plan.user["username"]`
when `state.plan.user` is truthy, with every exception (TypeError on a
non-dict, KeyError on a missing key) caught and mapped to `None`; `None`
when `state.plan.user` is falsy. -/
def plan_owner_of (st : ExecState) : Val :=
  match st.plan.user with
  | .vdict f => (lookupField f kUsername).getD .vnone
  | _ => .vnone

/-- The fallback owner lookup of db.py line 16 / line 28:
`getattr(state, "user", {}).get("username")`.  The attribute always
exists in this model; `.get` raises AttributeError when its value is not
a dict (e.g. `None`). -/
def state_user_name (st : ExecState) : Except PyErr Val :=
  match st.user with
  | .vdict f => .ok ((lookupField f kUsername).getD .vnone)
  | _ => .error .attributeError

/-- Function `get_plan_by_id` (db.py lines 7-18): missing id gives `None`; then the
stored state is returned when the caller's `user["username"]` equals the
plan-level owner, or, failing that, the state-level username; otherwise
`None`.  The `or` short-circuits, so the state-level lookup (which can
raise) only runs when the owner comparison fails. -/
def get_plan_by_id (store : Store) (plan_id : Nat) (user : Ident) : Except PyErr (Option ExecState) :=
  match storeLookup store plan_id with
  | none => .ok none
  | some st =>
    match lookupField user kUsername with
    | none => .error .keyError
    | some cn =>
      if pyEqVal (plan_owner_of st) cn then .ok (some st)
      else
        match state_user_name st with
        | .error e => .error e
        | .ok sn => if pyEqVal sn cn then .ok (some st) else .ok none

/-- The per-state ownership check of `list_all_plans` (db.py lines 22-29),
same comparison chain as `get_plan_by_id`. -/
def list_check (cn : Val) (st : ExecState) : Except PyErr Bool :=
  if pyEqVal (plan_owner_of st) cn then .ok true
  else
    match state_user_name st with
    | .error e => .error e
    | .ok sn => .ok (pyEqVal sn cn)

/-- Function `list_all_plans` (db.py lines 20-30): filter the stored states by the
ownership check, in store order.  `user["username"]` is only read inside
the loop, so an empty store never raises. -/
def list_all_plans (store : Store) (user : Ident) : Except PyErr (List ExecState) :=
  match store with
  | [] => .ok []
  | kv :: rest =>
    match lookupField user kUsername with
    | none => .error .keyError
    | some cn =>
      match list_check cn kv.2 with
      | .error e => .error e
      | .ok b =>
        match list_all_plans rest user with
        | .error e => .error e
        | .ok tail => .ok (if b then kv.2 :: tail else tail)

/-- The demo identity returned by auth.py `get_current_user`. -/
def demo_user : Ident := [(kUsername, .vstr (pstr (r"demo_user"))), (pstr (r"role"), .vstr (pstr (r"admin")))]

/-! External collaborators, threaded through an explicit environment. -/

/-- A registry tool: a callable taking named inputs (agent_manager.py
dispatches keyword arguments) and returning a result value. -/
abbrev Tool := List (Str × Val) → Val

/-- The execution environment: the optional integrated tool registry
(`integrated_registry`, `None` when Portia is unavailable), the pandas
file parser behind `DataProcessor.process_file` (external file-format
parsing; it returns a dict, given here by its field list), the SMTP/env
configuration of tool_email.py, the wall clock (`datetime.now()`
renderings, constant within a run), and the plan identifier drawn in
place of `uuid4()`. -/
structure Env where
  registry : Option (Str → Option Tool)
  process_file : Str → List (Str × Val)
  email_from : Str
  email_enabled : Bool
  smtp_ok : Bool
  smtp_err : Str
  smtp_host : Str
  smtp_port : Int
  smtp_security : Str
  clock_iso : Str
  clock_fmt : Str
  plan_id : Nat

/-- The body argument handed to the email tool by the executor: either a
literal string passed through unchanged, or the rendering of a resolved
result (`create_rich_email_body(d)` for a dict, `str(d)` otherwise,
agent_manager.py lines 433-436).  The report text itself
(`create_rich_email_body`, lines 56-141) is pure presentation — float and
locale number formatting never inspected by any claim — and is kept as a
symbolic constructor carrying the full resolved value. -/
inductive EmailBody where
  | literal (s : Str) : EmailBody
  | report (d : Val) : EmailBody
  | plain (d : Val) : EmailBody

/-- One invocation of the email tool, recorded for the spy/counter view
of the spec's approval-gating property. -/
structure EmailCall where
  toAddr : Val
  subject : Val
  body : EmailBody

/-- Function `send_email` (tool_email.py lines 6-51): with `EMAIL_ENABLED` unset or
false the send is mocked; otherwise the SMTP transport (external) either
succeeds or raises, and every branch returns a dict that carries the
`to` argument back under key `to`. -/
def send_email (env : Env) (toV subject : Val) (body : EmailBody) : Val :=
  if env.email_enabled then
    if env.smtp_ok then
      .vdict [(kStatus, .vstr (pstr (r"sent"))), (kTo, toV), (kFrom, .vstr env.email_from)]
    else
      .vdict [(kStatus, .vstr (pstr (r"error"))), (kTo, toV), (kFrom, .vstr env.email_from),
              (kError, .vstr env.smtp_err), (kHost, .vstr env.smtp_host),
              (kPort, .vnum env.smtp_port), (kSecurity, .vstr env.smtp_security)]
  else
    .vdict [(kStatus, .vstr (pstr (r"mocked"))), (kTo, toV), (kFrom, .vstr env.email_from)]

mutual

/-- Function `clean_for_json` (tool_data.py lines 369-390): recursively rebuild
dicts and lists; scalars pass through (the NaN/Inf special cases concern
floats, which do not occur in this value model, and `pd.isna(None)` maps
`None` to `None`). -/
def clean_for_json : Val → Val
  | .vdict f => .vdict (cleanFields f)
  | .vlist l => .vlist (cleanItems l)
  | v => v

/-- Recursion of `clean_for_json` over dict fields. -/
def cleanFields : List (Str × Val) → List (Str × Val)
  | [] => []
  | kv :: rest => (kv.1, clean_for_json kv.2) :: cleanFields rest

/-- Recursion of `clean_for_json` over list items. -/
def cleanItems : List Val → List Val
  | [] => []
  | v :: rest => clean_for_json v :: cleanItems rest

end

/-- Model of `Path(p).name` (pathlib): the final path component — trailing slashes
stripped, then the suffix after the last `/`. -/
def pathBaseName (p : Str) : Str :=
  let q := (p.reverse.dropWhile (fun c => c = '/')).reverse
  (q.reverse.takeWhile (fun c => c ≠ '/')).reverse

/-- The five demo sales rows of tool_data.py lines 416-422. -/
def demo_rows : Val :=
  .vlist [
    .vdict [(pstr (r"date"), .vstr (pstr (r"2025-01-19"))), (pstr (r"sales"), .vnum 1200),
            (pstr (r"region"), .vstr (pstr (r"North"))), (pstr (r"product"), .vstr (pstr (r"Widget A")))],
    .vdict [(pstr (r"date"), .vstr (pstr (r"2025-01-20"))), (pstr (r"sales"), .vnum 1450),
            (pstr (r"region"), .vstr (pstr (r"South"))), (pstr (r"product"), .vstr (pstr (r"Widget B")))],
    .vdict [(pstr (r"date"), .vstr (pstr (r"2025-01-21"))), (pstr (r"sales"), .vnum 980),
            (pstr (r"region"), .vstr (pstr (r"East"))), (pstr (r"product"), .vstr (pstr (r"Widget A")))],
    .vdict [(pstr (r"date"), .vstr (pstr (r"2025-01-22"))), (pstr (r"sales"), .vnum 1650),
            (pstr (r"region"), .vstr (pstr (r"West"))), (pstr (r"product"), .vstr (pstr (r"Widget C")))],
    .vdict [(pstr (r"date"), .vstr (pstr (r"2025-01-23"))), (pstr (r"sales"), .vnum 1320),
            (pstr (r"region"), .vstr (pstr (r"North"))), (pstr (r"product"), .vstr (pstr (r"Widget B")))]]

/-- The demo-data result of tool_data.py lines 424-440, with the pandas
aggregates computed out: total 6600, mean exactly 1320 (a float `1320.0`
in Python, an exact integer, and formatted `:.0f` in the summary), 5 days,
4 distinct regions, 3 distinct products. -/
def demo_result (env : Env) : Val :=
  .vdict [
    (kSummary, .vstr (pstr (r"Demo data: Total sales of 6,600 across 5 days (avg: 1320 per day)"))),
    (pstr (r"statistics"), .vdict [
      (pstr (r"total_sales"), .vnum 6600),
      (pstr (r"average_sales"), .vnum 1320),
      (pstr (r"days"), .vnum 5),
      (pstr (r"regions"), .vnum 4),
      (pstr (r"products"), .vnum 3)]),
    (pstr (r"raw"), demo_rows),
    (kSource, .vstr (pstr (r"demo_data"))),
    (kTimestamp, .vstr env.clock_iso)]

/-- Function `fetch_and_summarize_data` (tool_data.py lines 395-440): with a truthy
file path, parse the file, stamp `timestamp`, overwrite `source` with
`file:<basename>`, and clean for JSON; a truthy non-string path would
raise inside pathlib; otherwise return the demo analysis. -/
def fetch_and_summarize_data (env : Env) (file_path : Val) : Except PyErr Val :=
  if truthy file_path then
    match file_path with
    | .vstr p =>
      .ok (clean_for_json (.vdict (pySet (pySet (env.process_file p) kTimestamp (.vstr env.clock_iso))
            kSource (.vstr (pstr (r"file:") ++ pathBaseName p)))))
    | _ => .error .typeError
  else
    .ok (demo_result env)

/-- The auto-approval decision record of agent_manager.py lines 165-171:
always `approved: True`, with reason, reviewer (`user.get("username",
"system")`), timestamp, and a formatted clarification id. -/
def approval_result (env : Env) (user : Ident) : Val :=
  .vdict [
    (kApproved, .vbool true),
    (kReason, .vstr (pstr (r"Auto-approved for demo - in production this would require human review"))),
    (kReviewer, pyGetD user kUsername (.vstr (pstr (r"system")))),
    (kTimestamp, .vstr env.clock_iso),
    (kClarificationId, .vstr (pstr (r"review_") ++ env.clock_fmt))]

/-- The `clarification_data` record of agent_manager.py lines 152-161.  It
is built and then discarded by `handle_human_review_clarification` (dead
code in the source); kept here for fidelity. -/
def clarification_request_preview (env : Env) (data_summary recipient : Val) (user : Ident) : Val :=
  .vdict [
    (kType, .vstr (pstr (r"human_review"))),
    (kStatus, .vstr (pstr (r"pending_review"))),
    (kDataPreview, .vdict [
      (kSummary, match data_summary with
        | .vdict f => (lookupField f kSummary).getD (.vstr (pstr (r"No summary")))
        | v => .vstr ((pyStrOf v).take 200)),
      (kRecipient, recipient),
      (kTimestamp, .vstr env.clock_iso),
      (kUser, pyGetD user kUsername (.vstr (pstr (r"unknown"))))])]

/-- Function `handle_human_review_clarification` (agent_manager.py lines 143-173):
builds and discards the preview record, then unconditionally returns the
auto-approval decision; the data summary and recipient arguments do not
influence the returned decision. -/
def handle_human_review_clarification (env : Env) (data_summary recipient : Val) (user : Ident) : Val :=
  approval_result env user

/-! Placeholder detection (agent_manager.py line 430). -/

/-- Whether `pat` is a character-prefix of `s` (Python `str.startswith`). -/
def startsWithChars : Str → Str → Bool
  | [], _ => true
  | _ :: _, [] => false
  | p :: ps, c :: cs => p = c && startsWithChars ps cs

/-- Whether `pat` is a character-suffix of `s` (Python `str.endswith`). -/
def endsWithChars (pat s : Str) : Bool := startsWithChars pat.reverse s.reverse

/-- Python substring containment (`pat in s`). -/
def containsSub (pat : Str) : Str → Bool
  | [] => startsWithChars pat []
  | s@(_ :: rest) => startsWithChars pat s || containsSub pat rest

/-- The placeholder shape test of agent_manager.py line 430:
`body_ref.startswith("${") and body_ref.endswith("}")`. -/
def is_placeholder (s : Str) : Bool :=
  startsWithChars ['$', braceL] s && endsWithChars [braceR] s

/-- The variable-name extraction of agent_manager.py line 431:
`body_ref[2:-1]`. -/
def strip_placeholder (s : Str) : Str := (s.drop 2).dropLast

/-- Python `next((i["value"] for i in inputs if i["name"] == n), default)`:
first matching named input, or the default. -/
def find_input_d (inputs : List (Str × Val)) (n : Str) (d : Val) : Val :=
  match inputs.find? (fun kv => decide (kv.1 = n)) with
  | some kv => kv.2
  | none => d

/-- Python `next(i["value"] for i in inputs if i["name"] == n)` with no default
(agent_manager.py lines 415-417): raises StopIteration when absent. -/
def find_input (inputs : List (Str × Val)) (n : Str) : Except PyErr Val :=
  match inputs.find? (fun kv => decide (kv.1 = n)) with
  | some kv => .ok kv.2
  | none => .error .stopIteration

/-- The body-reference resolution of agent_manager.py lines 429-438: a
string of the placeholder shape is looked up in the execution state and
rendered (`create_rich_email_body` for dicts, `str` otherwise); any other
string passes through as a literal; a non-string body would raise on
`.startswith`. -/
def resolve_body (results : List (Str × Val)) (body_ref : Val) : Except PyErr EmailBody :=
  match body_ref with
  | .vstr s =>
    if is_placeholder s then
      let d := get_result results (strip_placeholder s)
      .ok (if isDictV d then .report d else .plain d)
    else .ok (.literal s)
  | _ => .error .attributeError

/-- The send-email branch of agent_manager.py lines 419-440: read the
most recent approval decision under `review_approval`; when present and
not approved, substitute the cancelled record without calling the email
tool; otherwise resolve the body and invoke `send_email`, recording the
invocation. -/
def exec_send_email (env : Env) (results : List (Str × Val)) (toV subject body_ref : Val) :
    Except PyErr (Val × List EmailCall) :=
  let approval := get_result results kReviewApproval
  let cancelQ : Except PyErr Bool :=
    if truthy approval then
      match pyDictGet approval kApproved (.vbool false) with
      | .error e => .error e
      | .ok a => .ok (!truthy a)
    else .ok false
  match cancelQ with
  | .error e => .error e
  | .ok true =>
    match pyDictGet approval kReason (.vstr (pstr (r"No reason provided"))) with
    | .error e => .error e
    | .ok msg =>
      .ok (.vdict [
        (kStatus, .vstr (pstr (r"cancelled"))),
        (kReason, .vstr (pstr (r"Human review rejected the email sending"))),
        (kTo, toV),
        (kMessage, msg)], [])
  | .ok false =>
    match resolve_body results body_ref with
    | .error e => .error e
    | .ok body => .ok (send_email env toV subject body, [⟨toV, subject, body⟩])

/-- The outcome of one executor iteration: the updated execution state,
the store after the per-step `save_plan`, and the email-tool invocations
made during the step. -/
structure StepOut where
  state : ExecState
  store : Store
  calls : List EmailCall

/-- One iteration of the executor loop of `run_plan` (agent_manager.py
lines 332-445): string-keyed dispatch over the step's tool identifier, in
the source's `elif` order, followed by the unconditional per-step
`save_plan`.  A tool identifier matching no branch records nothing and
the loop moves on. -/
def exec_step (env : Env) (request : Ident) (user : Ident) (st : ExecState) (store : Store)
    (step : Step) : Except PyErr StepOut :=
  if step.tool_id = idFetch then
    match fetch_and_summarize_data env (pyGetD request kFilePath .vnone) with
    | .error e => .error e
    | .ok result =>
      let st2 := add_result st step.output result
      .ok ⟨st2, save_plan store st2, []⟩
  else if startsWithChars qPre step.tool_id && endsWithChars dbSuf step.tool_id then
    let result :=
      match env.registry with
      | none => Val.vdict [(kError, .vstr (pstr (r"Database tools not available")))]
      | some reg =>
        match reg step.tool_id with
        | none => Val.vdict [(kError, .vstr (pstr (r"Database tool ") ++ step.tool_id ++ pstr (r" not found")))]
        | some tool =>
          let q := find_input_d step.inputs kQuery (.vstr [])
          let ps := find_input_d step.inputs kParams (.vlist [])
          if truthy ps then tool [(kQuery, q), (kParams, ps)] else tool [(kQuery, q)]
    let st2 := add_result st step.output result
    .ok ⟨st2, save_plan store st2, []⟩
  else if startsWithChars getPre step.tool_id &&
      (containsSub sfStr step.tool_id || containsSub hsStr step.tool_id || containsSub zdStr step.tool_id) then
    let result :=
      match env.registry with
      | none => Val.vdict [(kError, .vstr (pstr (r"CRM tools not available")))]
      | some reg =>
        match reg step.tool_id with
        | none => Val.vdict [(kError, .vstr (pstr (r"CRM tool ") ++ step.tool_id ++ pstr (r" not found")))]
        | some tool =>
          tool [(kLimit, find_input_d step.inputs kLimit (.vnum 10)),
                (kSearchTerm, find_input_d step.inputs kSearchTerm .vnone)]
    let st2 := add_result st step.output result
    .ok ⟨st2, save_plan store st2, []⟩
  else if startsWithChars createPre step.tool_id &&
      (containsSub sfStr step.tool_id || containsSub hsStr step.tool_id || containsSub zdStr step.tool_id) then
    let result :=
      match env.registry with
      | none => Val.vdict [(kError, .vstr (pstr (r"CRM tools not available")))]
      | some reg =>
        match reg step.tool_id with
        | none => Val.vdict [(kError, .vstr (pstr (r"CRM tool ") ++ step.tool_id ++ pstr (r" not found")))]
        | some tool =>
          if containsSub (pstr (r"salesforce_lead")) step.tool_id then
            tool [(kFirstName, find_input_d step.inputs kFirstName (.vstr [])),
                  (kLastName, find_input_d step.inputs kLastName (.vstr [])),
                  (kEmail, find_input_d step.inputs kEmail (.vstr [])),
                  (kCompany, find_input_d step.inputs kCompany (.vstr []))]
          else
            Val.vdict [(kError, .vstr (pstr (r"Create operation for ") ++ step.tool_id ++ pstr (r" not implemented")))]
    let st2 := add_result st step.output result
    .ok ⟨st2, save_plan store st2, []⟩
  else if step.tool_id = idTest then
    let result :=
      match env.registry with
      | none => Val.vdict [(kError, .vstr (pstr (r"Integration tools not available")))]
      | some reg =>
        match reg idTest with
        | none => Val.vdict [(kError, .vstr (pstr (r"Integration test tool not found")))]
        | some tool => tool []
    let st2 := add_result st step.output result
    .ok ⟨st2, save_plan store st2, []⟩
  else if step.tool_id = idReview then
    let data_summary := get_result st.results kDataAnalysis
    let recipient := find_input_d step.inputs kRecipient (.vstr (pstr (r"unknown")))
    let result := handle_human_review_clarification env data_summary recipient user
    let st2 := add_result st step.output result
    .ok ⟨st2, save_plan store st2, []⟩
  else if step.tool_id = idSend then
    match find_input step.inputs kTo with
    | .error e => .error e
    | .ok toV =>
      match find_input step.inputs kSubject with
      | .error e => .error e
      | .ok subject =>
        match find_input step.inputs kBody with
        | .error e => .error e
        | .ok body_ref =>
          match exec_send_email env st.results toV subject body_ref with
          | .error e => .error e
          | .ok rc =>
            let st2 := add_result st step.output rc.1
            .ok ⟨st2, save_plan store st2, rc.2⟩
  else
    .ok ⟨st, save_plan store st, []⟩

/-- The executor loop: steps strictly in sequence, threading state and
store, accumulating email-tool invocations; the first raised exception
aborts the run. -/
def exec_steps (env : Env) (request : Ident) (user : Ident) :
    ExecState → Store → List Step → Except PyErr StepOut
  | st, store, [] => .ok ⟨st, store, []⟩
  | st, store, s :: rest =>
    match exec_step env request user st store s with
    | .error e => .error e
    | .ok o =>
      match exec_steps env request user o.state o.store rest with
      | .error e => .error e
      | .ok r => .ok ⟨r.state, r.store, o.calls ++ r.calls⟩

/-! Plan building. -/

/-- The fallback plan of agent_manager.py lines 296-320 (the
`PORTIA_AVAILABLE = False` branch): always exactly three steps — analyze,
human-review checkpoint, send-email — regardless of the request's other
options.  The email step's `to` input carries `request.get("to")`, which
is `None` when no recipient was supplied. -/
def build_fallback_steps (request : Ident) : List Step :=
  [⟨pstr (r"Analyze data file: ") ++ pyStrOf (pyGetD request kFilePath (.vstr (pstr (r"demo data")))),
    idFetch, kDataAnalysis, [],
    some (pstr (r"Process uploaded data or generate demo analysis"))⟩,
   ⟨pstr (r"Human review checkpoint"), idReview, kReviewApproval, [],
    some (pstr (r"Pause for human approval before sending email"))⟩,
   ⟨pstr (r"Send analysis email"), idSend, kEmailStatus,
    [(kTo, pyGetD request kTo .vnone),
     (kSubject, .vstr subjStr),
     (kBody, .vstr phDataAnalysis)],
    some (pstr (r"Send comprehensive email with analysis results"))⟩]

/-- The dynamic plan of agent_manager.py lines 199-291 (the Portia
branch): the ordered sequence of `plan_builder.step(...)` records — a
data-analysis step whose task text (but not tool identifier) depends on
the file path, optional database / CRM / integration-test steps, then the
review and send-email steps. -/
def build_portia_steps (request : Ident) : List Step :=
  (if truthy (pyGetD request kFilePath .vnone) then
    [⟨pstr (r"Analyze uploaded data file: ") ++ pyStrOf (pyGetD request kFilePath (.vstr (pstr (r"unknown")))),
      idFetch, kDataAnalysis, [],
      some (pstr (r"Process and analyze the uploaded data file with visualizations and insights"))⟩]
   else
    [⟨pstr (r"Fetch and analyze demo sales data"), idFetch, kDataAnalysis, [],
      some (pstr (r"Generate sample sales data analysis with charts and statistics"))⟩])
  ++ (if truthy (pyGetD request (pstr (r"database_query")) .vnone) then
    let dbt := pyStrOf (pyGetD request (pstr (r"database_type")) (.vstr (pstr (r"sqlite"))))
    [⟨pstr (r"Execute database query on ") ++ dbt,
      qPre ++ dbt ++ dbSuf, kDatabaseResults,
      [(kQuery, pyGetD request (pstr (r"database_query")) .vnone),
       (kParams, pyGetD request (pstr (r"database_params")) (.vlist []))],
      some (pstr (r"Query ") ++ dbt ++ pstr (r" database for additional context"))⟩]
   else [])
  ++ (if truthy (pyGetD request (pstr (r"crm_operation")) .vnone) then
    let crmt := pyGetD request (pstr (r"crm_type")) (.vstr sfStr)
    let op := pyGetD request (pstr (r"crm_operation")) .vnone
    if pyEqVal op (.vstr (pstr (r"get_contacts"))) then
      [⟨pstr (r"Retrieve contacts from ") ++ pyStrOf crmt,
        getPre ++ pyStrOf crmt ++ pstr (r"_contacts"), kCrmContacts,
        [(kLimit, pyGetD request (pstr (r"crm_limit")) (.vnum 10)),
         (kSearchTerm, pyGetD request (pstr (r"crm_search")) .vnone)],
        some (pstr (r"Fetch contact information from ") ++ pyStrOf crmt ++ pstr (r" CRM"))⟩]
    else if pyEqVal op (.vstr (pstr (r"create_lead"))) && pyEqVal crmt (.vstr sfStr) then
      [⟨pstr (r"Create new lead in Salesforce"),
        pstr (r"create_salesforce_lead"), kNewLead,
        [(kFirstName, pyGetD request (pstr (r"lead_first_name")) (.vstr [])),
         (kLastName, pyGetD request (pstr (r"lead_last_name")) (.vstr [])),
         (kEmail, pyGetD request (pstr (r"lead_email")) (.vstr [])),
         (kCompany, pyGetD request (pstr (r"lead_company")) (.vstr []))],
        some (pstr (r"Create a new lead based on data analysis"))⟩]
    else []
   else [])
  ++ (if truthy (pyGetD request idTest .vnone) then
    [⟨pstr (r"Test all integration connections"), idTest, kIntegrationTests, [],
      some (pstr (r"Verify connectivity to databases and CRM systems"))⟩]
   else [])
  ++ [⟨pstr (r"Review data analysis before sending"), idReview, kReviewApproval,
      [(kDataSummary, .vstr phDataAnalysis),
       (kRecipient, pyGetD request kTo (.vstr (pstr (r"unknown"))))],
      some (pstr (r"Pause for human review of sensitive data before email transmission"))⟩]
  ++ [⟨pstr (r"Send comprehensive data analysis email"), idSend, kEmailStatus,
      [(kTo, pyGetD request kTo .vnone),
       (kSubject, .vstr subjStr),
       (kBody, .vstr phDataAnalysis),
       (kApproved, .vstr phReviewApproval)],
      some (pstr (r"Send formatted email with analysis results and visualizations note"))⟩]

/-- The value returned by `run_plan` (agent_manager.py lines 453-457),
plus the final store and the email-call trace as model instrumentation. -/
structure RunOut where
  plan_id : Str
  results : List (Str × Val)
  summary : Str
  store : Store
  calls : List EmailCall

/-- Function `run_plan` on the fully in-repository path (agent_manager.py lines
191-457 with `PORTIA_AVAILABLE = False`): build the three-step fallback
plan, attach the user, execute the steps sequentially with per-step
persistence, and return the plan id, the ordered result list and the
summary text. -/
def run_plan (env : Env) (request : Ident) (user : Ident) (store : Store) : Except PyErr RunOut :=
  let query := pyGetD request kQuery (.vstr (pstr (r"Analyze data and send summary")))
  let steps := build_fallback_steps request
  let plan : Plan := { id := env.plan_id, steps := steps, user := .vdict user,
                       query := query }
  let st0 : ExecState := { plan := plan, user := .vdict user, results := [] }
  match exec_steps env request user st0 store steps with
  | .error e => .error e
  | .ok o =>
    .ok { plan_id := (toString env.plan_id).data,
          results := o.state.results,
          summary := pstr (r"Plan ") ++ (toString env.plan_id).data ++ pstr (r" executed with ")
            ++ (toString o.state.results.length).data ++ pstr (r" results."),
          store := o.store,
          calls := o.calls }

/-! Shared helper lemmas and sample inputs. -/

/-- Looking up the key just assigned by dict item assignment yields the
assigned value. -/
theorem lookupField_pySet (f : List (Str × Val)) (k : Str) (v : Val) :
    lookupField (pySet f k v) k = some v := by
  induction f with
  | nil => simp [pySet, lookupField]
  | cons kv rest ih =>
    by_cases h : kv.1 = k
    · simp [pySet, h, lookupField]
    · simp [pySet, h, lookupField, ih]

/-- Cleaning via `clean_for_json` preserves keys and cleans values pointwise. -/
theorem lookupField_cleanFields (f : List (Str × Val)) (k : Str) :
    lookupField (cleanFields f) k = (lookupField f k).map clean_for_json := by
  induction f with
  | nil => simp [cleanFields, lookupField]
  | cons kv rest ih =>
    by_cases h : kv.1 = k <;> simp [cleanFields, lookupField, h, ih]

/-- Definitional reduction of the executor on a send-email step: the
string-keyed dispatch selects the branch of agent_manager.py lines
413-442. -/
theorem exec_step_send_eq (env : Env) (request user : Ident) (st : ExecState) (store : Store)
    (t out : Str) (inputs : List (Str × Val)) (d : Option Str) :
    exec_step env request user st store ⟨t, idSend, out, inputs, d⟩ =
      (match find_input inputs kTo with
       | .error e => .error e
       | .ok toV =>
         match find_input inputs kSubject with
         | .error e => .error e
         | .ok subject =>
           match find_input inputs kBody with
           | .error e => .error e
           | .ok body_ref =>
             match exec_send_email env st.results toV subject body_ref with
             | .error e => .error e
             | .ok rc =>
               .ok ⟨add_result st out rc.1, save_plan store (add_result st out rc.1), rc.2⟩) := rfl

/-- Definitional reduction of the executor on a human-review step: the
dispatch selects the branch of agent_manager.py lines 400-411, and the
stub's decision does not depend on the looked-up summary or recipient. -/
theorem exec_step_review_eq (env : Env) (request user : Ident) (st : ExecState) (store : Store)
    (t out : Str) (inputs : List (Str × Val)) (d : Option Str) :
    exec_step env request user st store ⟨t, idReview, out, inputs, d⟩ =
      .ok ⟨add_result st out (approval_result env user),
           save_plan store (add_result st out (approval_result env user)), []⟩ := rfl

/-- The result computed by the integration-test branch of the executor
(agent_manager.py lines 388-398), factored for the reduction lemma. -/
def test_result (env : Env) : Val :=
  match env.registry with
  | none => Val.vdict [(kError, .vstr (pstr (r"Integration tools not available")))]
  | some reg =>
    match reg idTest with
    | none => Val.vdict [(kError, .vstr (pstr (r"Integration test tool not found")))]
    | some tool => tool []

/-- Definitional reduction of the executor on an integration-test step. -/
theorem exec_step_test_eq (env : Env) (request user : Ident) (st : ExecState) (store : Store)
    (t out : Str) (inputs : List (Str × Val)) (d : Option Str) :
    exec_step env request user st store ⟨t, idTest, out, inputs, d⟩ =
      .ok ⟨add_result st out (test_result env),
           save_plan store (add_result st out (test_result env)), []⟩ := rfl

/-- A string passing a nonempty prefix check starts with that prefix's
first character. -/
theorem startsWith_head_eq (a : Char) (p s : Str) (h : startsWithChars (a :: p) s = true) :
    s.head? = some a := by
  cases s with
  | nil => exact absurd h (by simp [startsWithChars])
  | cons c cs =>
    simp only [startsWithChars, Bool.and_eq_true, decide_eq_true_eq] at h
    simp [h.1]

/-- A development-default environment: no Portia registry, mocked email
(`EMAIL_ENABLED` unset), trivial file parser and fixed clock. -/
def sample_env : Env := {
  registry := none
  process_file := fun _ => []
  email_from := pstr (r"no-reply@example.com")
  email_enabled := false
  smtp_ok := true
  smtp_err := []
  smtp_host := pstr (r"localhost")
  smtp_port := 25
  smtp_security := pstr (r"none")
  clock_iso := pstr (r"2026-10-12T00:00:00")
  clock_fmt := pstr (r"20261012_000000")
  plan_id := 7 }

/-- The development environment with a registry present that resolves no
tool identifier. -/
def sample_env_reg : Env := { sample_env with registry := some (fun _ => none) }

/-- A fresh execution state owned by the demo user. -/
def sample_state : ExecState :=
  { plan := { id := 1, steps := [], user := .vdict demo_user, query := .vnone },
    user := .vdict demo_user, results := [] }

/-- A stored state whose plan carries a readable owner different from the
state-level user. -/
def sample_state_other_owner : ExecState :=
  { plan := { id := 3, steps := [], user := .vdict [(kUsername, .vstr (pstr (r"alice")))],
              query := .vnone },
    user := .vdict demo_user, results := [] }

/-- A stored state whose plan has no readable owner (`plan.user = None`)
but whose state-level user is the demo user. -/
def sample_state_no_owner : ExecState :=
  { plan := { id := 2, steps := [], user := .vnone, query := .vnone },
    user := .vdict demo_user, results := [] }

/-! Claim theorems. -/

/-- C2: executing a human-review step records the auto-approval decision:
`approved` is `True` (never `False`), and the record carries a reviewer,
a reason and a timestamp (agent_manager.py lines 143-173 and 400-411). -/
theorem spec_c2_review_auto_approves (env : Env) (request user : Ident) (st : ExecState)
    (store : Store) (t out : Str) (inputs : List (Str × Val)) (d : Option Str) :
    exec_step env request user st store ⟨t, idReview, out, inputs, d⟩ =
      .ok ⟨{ st with results := st.results ++ [(out, approval_result env user)] },
           save_plan store { st with results := st.results ++ [(out, approval_result env user)] },
           []⟩
    ∧ pyGetV (approval_result env user) kApproved = some (.vbool true)
    ∧ (pyGetV (approval_result env user) kReviewer).isSome = true
    ∧ (pyGetV (approval_result env user) kReason).isSome = true
    ∧ (pyGetV (approval_result env user) kTimestamp).isSome = true :=
  ⟨rfl, rfl, rfl, rfl, rfl⟩

/-- C3 counterexample: with two records under the same output identifier,
`ExecutionState.get_result` returns the data of the FIRST (earliest)
record, not of the most recently appended one, refuting the claim at the
concrete state `[("x", 1), ("x", 2)]`. -/
theorem spec_c3_counterexample :
    get_result [(pstr (r"x"), .vnum 1), (pstr (r"x"), .vnum 2)] (pstr (r"x")) = .vnum 1
    ∧ ¬ get_result [(pstr (r"x"), .vnum 1), (pstr (r"x"), .vnum 2)] (pstr (r"x")) = .vnum 2 := by
  refine ⟨rfl, ?_⟩
  intro h
  rw [show get_result [(pstr (r"x"), .vnum 1), (pstr (r"x"), .vnum 2)] (pstr (r"x")) = .vnum 1
      from rfl] at h
  injection h with h2
  exact absurd h2 (by decide)

/-- C3 amended: Execution State lookup returns the data of the first
(earliest-recorded) matching record; any later duplicates under the same
output identifier are shadowed (agent_manager.py lines 185-189). -/
theorem spec_c3_first_match (pre rest : List (Str × Val)) (k : Str) (d : Val)
    (h : ∀ q ∈ pre, q.1 ≠ k) :
    get_result (pre ++ (k, d) :: rest) k = d := by
  induction pre with
  | nil => simp [get_result]
  | cons q qs ih =>
    have hq : q.1 ≠ k := h q (List.mem_cons_self q qs)
    simp only [List.cons_append, get_result, if_neg hq]
    exact ih (fun r hr => h r (List.mem_cons_of_mem q hr))

/-- Witness for C3 amended: concrete lookup past a non-matching record,
with a shadowed duplicate behind the first match. -/
theorem spec_c3_witness :
    get_result ([(pstr (r"y"), .vnum 0)] ++ (pstr (r"x"), .vnum 1) :: [(pstr (r"x"), .vnum 2)])
      (pstr (r"x")) = .vnum 1 :=
  spec_c3_first_match [(pstr (r"y"), .vnum 0)] [(pstr (r"x"), .vnum 2)] (pstr (r"x")) (.vnum 1)
    (by decide)

/-- C1: whenever the recorded result under the approval output identifier
`review_approval` is a decision with `approved: False`, executing the
send-email step records the `status: "cancelled"` result and never
invokes the email tool (empty call trace) — agent_manager.py lines
413-442. -/
theorem spec_c1_email_cancelled_on_rejection
    (env : Env) (request user : Ident) (st : ExecState) (store : Store)
    (t out : Str) (inputs : List (Str × Val)) (d : Option Str)
    (tv sv bv : Val) (f : List (Str × Val))
    (hTo : find_input inputs kTo = .ok tv)
    (hSub : find_input inputs kSubject = .ok sv)
    (hBody : find_input inputs kBody = .ok bv)
    (hAppr : get_result st.results kReviewApproval = .vdict f)
    (hFalse : lookupField f kApproved = some (.vbool false)) :
    exec_step env request user st store ⟨t, idSend, out, inputs, d⟩ =
      .ok ⟨{ st with results := st.results ++
              [(out, .vdict [(kStatus, .vstr (pstr (r"cancelled"))),
                             (kReason, .vstr (pstr (r"Human review rejected the email sending"))),
                             (kTo, tv),
                             (kMessage, (lookupField f kReason).getD (.vstr (pstr (r"No reason provided"))))])] },
           save_plan store { st with results := st.results ++
              [(out, .vdict [(kStatus, .vstr (pstr (r"cancelled"))),
                             (kReason, .vstr (pstr (r"Human review rejected the email sending"))),
                             (kTo, tv),
                             (kMessage, (lookupField f kReason).getD (.vstr (pstr (r"No reason provided"))))])] },
           []⟩ := by
  have hf : f ≠ [] := by
    intro h0
    subst h0
    simp [lookupField] at hFalse
  have htru : truthy (Val.vdict f) = true := by
    cases f with
    | nil => exact absurd rfl hf
    | cons a l => rfl
  have hcancel : exec_send_email env st.results tv sv bv =
      .ok (.vdict [(kStatus, .vstr (pstr (r"cancelled"))),
                   (kReason, .vstr (pstr (r"Human review rejected the email sending"))),
                   (kTo, tv),
                   (kMessage, (lookupField f kReason).getD (.vstr (pstr (r"No reason provided"))))], []) := by
    have hne : f.isEmpty = false := by
      cases f with
      | nil => exact absurd rfl hf
      | cons a l => rfl
    simp [exec_send_email, hAppr, hFalse, hne, pyDictGet, truthy]
  rw [exec_step_send_eq]
  simp only [hTo, hSub, hBody, hcancel]
  rfl

/-- Witness for C1: a concrete state whose approval record has
`approved: False` leads to a cancelled email-step result and an empty
email-call trace. -/
theorem spec_c1_witness :
    exec_step sample_env [] demo_user
      { sample_state with results := [(kReviewApproval, .vdict [(kApproved, .vbool false), (kReason, .vstr (pstr (r"nope")))])] }
      [] ⟨[], idSend, kEmailStatus,
          [(kTo, .vstr (pstr (r"a@b.c"))), (kSubject, .vstr subjStr), (kBody, .vstr phDataAnalysis)], none⟩ =
      .ok ⟨{ sample_state with results :=
              [(kReviewApproval, .vdict [(kApproved, .vbool false), (kReason, .vstr (pstr (r"nope")))]),
               (kEmailStatus, .vdict [(kStatus, .vstr (pstr (r"cancelled"))),
                                      (kReason, .vstr (pstr (r"Human review rejected the email sending"))),
                                      (kTo, .vstr (pstr (r"a@b.c"))),
                                      (kMessage, .vstr (pstr (r"nope")))])] },
           save_plan [] { sample_state with results :=
              [(kReviewApproval, .vdict [(kApproved, .vbool false), (kReason, .vstr (pstr (r"nope")))]),
               (kEmailStatus, .vdict [(kStatus, .vstr (pstr (r"cancelled"))),
                                      (kReason, .vstr (pstr (r"Human review rejected the email sending"))),
                                      (kTo, .vstr (pstr (r"a@b.c"))),
                                      (kMessage, .vstr (pstr (r"nope")))])] },
           []⟩ :=
  spec_c1_email_cancelled_on_rejection sample_env [] demo_user
    { sample_state with results := [(kReviewApproval, .vdict [(kApproved, .vbool false), (kReason, .vstr (pstr (r"nope")))])] }
    [] [] kEmailStatus
    [(kTo, .vstr (pstr (r"a@b.c"))), (kSubject, .vstr subjStr), (kBody, .vstr phDataAnalysis)] none
    (.vstr (pstr (r"a@b.c"))) (.vstr subjStr) (.vstr phDataAnalysis)
    [(kApproved, .vbool false), (kReason, .vstr (pstr (r"nope")))]
    rfl rfl rfl rfl rfl

/-- C4 counterexample: the built plan's first step uses the SAME tool
identifier `fetch_and_summarize_data` whether or not a file path is
supplied — in the dynamic builder (agent_manager.py lines 199-213) and in
the fallback builder (lines 296-302) alike — refuting the claimed
distinctness of the file-analysis and demo-data tool identifiers at the
concrete request `{file_path: "data/sales.csv"}`. -/
theorem spec_c4_counterexample :
    ((build_portia_steps [(kFilePath, .vstr (pstr (r"data/sales.csv")))]).head?.map Step.tool_id) = some idFetch
    ∧ ((build_portia_steps []).head?.map Step.tool_id) = some idFetch
    ∧ ((build_fallback_steps [(kFilePath, .vstr (pstr (r"data/sales.csv")))]).head?.map Step.tool_id) = some idFetch
    ∧ ((build_fallback_steps []).head?.map Step.tool_id) = some idFetch :=
  ⟨rfl, rfl, rfl, rfl⟩

/-- C4 amended: the first (data-analysis) step of every built plan uses
the single tool identifier `fetch_and_summarize_data` regardless of
whether a file path is supplied (only the task text differs); the
distinction lives inside that one tool, whose result for a supplied path
carries `source = "file:<basename>"` (tool_data.py lines 407-413). -/
theorem spec_c4_same_tool_and_source (request : Ident) (env : Env) (p : Str)
    (hp : truthy (.vstr p) = true) :
    ((build_portia_steps request).head?.map Step.tool_id) = some idFetch
    ∧ ((build_fallback_steps request).head?.map Step.tool_id) = some idFetch
    ∧ (fetch_and_summarize_data env (.vstr p)).map (fun r => pyGetV r kSource) =
        .ok (some (.vstr (pstr (r"file:") ++ pathBaseName p))) := by
  refine ⟨?_, rfl, ?_⟩
  · cases h : truthy (pyGetD request kFilePath .vnone) <;> simp [build_portia_steps, h]
  · simp only [fetch_and_summarize_data, hp, if_true]
    simp [Except.map, clean_for_json, pyGetV, lookupField_cleanFields, lookupField_pySet]

/-- Witness for C4 amended: the concrete uploaded-file request. -/
theorem spec_c4_witness :
    ((build_portia_steps [(kFilePath, .vstr (pstr (r"data/sales.csv")))]).head?.map Step.tool_id) = some idFetch
    ∧ ((build_fallback_steps [(kFilePath, .vstr (pstr (r"data/sales.csv")))]).head?.map Step.tool_id) = some idFetch
    ∧ (fetch_and_summarize_data sample_env (.vstr (pstr (r"data/sales.csv")))).map (fun r => pyGetV r kSource) =
        .ok (some (.vstr (pstr (r"file:sales.csv")))) :=
  spec_c4_same_tool_and_source [(kFilePath, .vstr (pstr (r"data/sales.csv")))] sample_env
    (pstr (r"data/sales.csv")) rfl

/-- C5 counterexample: a step whose tool identifier matches no dispatch
branch at all (`nonexistent_tool`) records NOTHING under its output
identifier — the claimed `{error: "<tool> not found"}` record does not
appear (the result list stays empty) — and even where the registry
branches do record an error, the message is `"Database tool <tool> not
found"`, not `"<tool> not found"`. -/
theorem spec_c5_counterexample :
    (exec_step sample_env [] demo_user sample_state []
      ⟨[], pstr (r"nonexistent_tool"), pstr (r"out1"), [], none⟩).map (fun o => o.state.results) = .ok []
    ∧ (exec_step sample_env_reg [] demo_user sample_state []
      ⟨[], pstr (r"query_mysql_database"), pstr (r"out1"), [], none⟩).map (fun o => o.state.results) =
      .ok [(pstr (r"out1"), .vdict [(kError, .vstr (pstr (r"Database tool query_mysql_database not found")))])] :=
  ⟨rfl, rfl⟩

/-- C5 amended: only the registry-dispatched branches degrade per step
with a "not found" record, each with its own wording: a database-pattern
step whose tool the available registry cannot resolve records
`{error: "Database tool <tool> not found"}`, a CRM get- or create-pattern
step records `{error: "CRM tool <tool> not found"}`, and an
integration-test step records `{error: "Integration test tool not
found"}` — in every case under the step's output identifier, with the run
continuing; and a step whose tool identifier matches no dispatch branch
at all records nothing and the run likewise continues (the `elif` chain
of agent_manager.py lines 332-445 has no final `else`). -/
theorem spec_c5_registry_not_found :
    (∀ (env : Env) (request user : Ident) (st : ExecState) (store : Store)
       (t tid out : Str) (inputs : List (Str × Val)) (d : Option Str) (reg : Str → Option Tool),
      env.registry = some reg → reg tid = none →
      startsWithChars qPre tid = true → endsWithChars dbSuf tid = true →
      exec_step env request user st store ⟨t, tid, out, inputs, d⟩ =
        .ok ⟨{ st with results := st.results ++
                [(out, .vdict [(kError, .vstr (pstr (r"Database tool ") ++ tid ++ pstr (r" not found")))])] },
             save_plan store { st with results := st.results ++
                [(out, .vdict [(kError, .vstr (pstr (r"Database tool ") ++ tid ++ pstr (r" not found")))])] },
             []⟩)
    ∧ (∀ (env : Env) (request user : Ident) (st : ExecState) (store : Store)
       (t tid out : Str) (inputs : List (Str × Val)) (d : Option Str) (reg : Str → Option Tool),
      env.registry = some reg → reg tid = none →
      startsWithChars getPre tid = true →
      (containsSub sfStr tid || containsSub hsStr tid || containsSub zdStr tid) = true →
      exec_step env request user st store ⟨t, tid, out, inputs, d⟩ =
        .ok ⟨{ st with results := st.results ++
                [(out, .vdict [(kError, .vstr (pstr (r"CRM tool ") ++ tid ++ pstr (r" not found")))])] },
             save_plan store { st with results := st.results ++
                [(out, .vdict [(kError, .vstr (pstr (r"CRM tool ") ++ tid ++ pstr (r" not found")))])] },
             []⟩)
    ∧ (∀ (env : Env) (request user : Ident) (st : ExecState) (store : Store)
       (t tid out : Str) (inputs : List (Str × Val)) (d : Option Str) (reg : Str → Option Tool),
      env.registry = some reg → reg tid = none →
      startsWithChars createPre tid = true →
      (containsSub sfStr tid || containsSub hsStr tid || containsSub zdStr tid) = true →
      exec_step env request user st store ⟨t, tid, out, inputs, d⟩ =
        .ok ⟨{ st with results := st.results ++
                [(out, .vdict [(kError, .vstr (pstr (r"CRM tool ") ++ tid ++ pstr (r" not found")))])] },
             save_plan store { st with results := st.results ++
                [(out, .vdict [(kError, .vstr (pstr (r"CRM tool ") ++ tid ++ pstr (r" not found")))])] },
             []⟩)
    ∧ (∀ (env : Env) (request user : Ident) (st : ExecState) (store : Store)
       (t out : Str) (inputs : List (Str × Val)) (d : Option Str) (reg : Str → Option Tool),
      env.registry = some reg → reg idTest = none →
      exec_step env request user st store ⟨t, idTest, out, inputs, d⟩ =
        .ok ⟨{ st with results := st.results ++
                [(out, .vdict [(kError, .vstr (pstr (r"Integration test tool not found")))])] },
             save_plan store { st with results := st.results ++
                [(out, .vdict [(kError, .vstr (pstr (r"Integration test tool not found")))])] },
             []⟩)
    ∧ (∀ (env : Env) (request user : Ident) (st : ExecState) (store : Store)
       (t tid out : Str) (inputs : List (Str × Val)) (d : Option Str),
      tid ≠ idFetch →
      (startsWithChars qPre tid && endsWithChars dbSuf tid) = false →
      (startsWithChars getPre tid &&
        (containsSub sfStr tid || containsSub hsStr tid || containsSub zdStr tid)) = false →
      (startsWithChars createPre tid &&
        (containsSub sfStr tid || containsSub hsStr tid || containsSub zdStr tid)) = false →
      tid ≠ idTest → tid ≠ idReview → tid ≠ idSend →
      exec_step env request user st store ⟨t, tid, out, inputs, d⟩ =
        .ok ⟨st, save_plan store st, []⟩) := by
  refine ⟨?_, ?_, ?_, ?_, ?_⟩
  · intro env request user st store t tid out inputs d reg hreg hmiss hq hd
    have hne : tid ≠ idFetch := by
      intro he
      subst he
      exact absurd hq (by decide)
    have hcond : (startsWithChars qPre tid && endsWithChars dbSuf tid) = true := by
      rw [hq, hd]
      rfl
    simp only [exec_step, if_neg hne, hcond, if_true, hreg, hmiss]
    rfl
  · intro env request user st store t tid out inputs d reg hreg hmiss hget hcrm
    have hne : tid ≠ idFetch := by
      intro he
      subst he
      exact absurd hget (by decide)
    have hq0 : startsWithChars qPre tid = false := by
      cases hq2 : startsWithChars qPre tid with
      | false => rfl
      | true =>
        have e1 := startsWith_head_eq 'g' (pstr (r"et_")) tid hget
        have e2 := startsWith_head_eq 'q' (pstr (r"uery_")) tid hq2
        rw [e1] at e2
        exact absurd (Option.some.inj e2) (by decide)
    have n2 : ¬ ((startsWithChars qPre tid && endsWithChars dbSuf tid) = true) := by
      rw [hq0]
      simp
    have hcond : (startsWithChars getPre tid &&
        (containsSub sfStr tid || containsSub hsStr tid || containsSub zdStr tid)) = true := by
      rw [hget, hcrm]
      rfl
    simp only [exec_step, if_neg hne, if_neg n2, hcond, if_true, hreg, hmiss]
    rfl
  · intro env request user st store t tid out inputs d reg hreg hmiss hcreate hcrm
    have hne : tid ≠ idFetch := by
      intro he
      subst he
      exact absurd hcreate (by decide)
    have hq0 : startsWithChars qPre tid = false := by
      cases hq2 : startsWithChars qPre tid with
      | false => rfl
      | true =>
        have e1 := startsWith_head_eq 'c' (pstr (r"reate_")) tid hcreate
        have e2 := startsWith_head_eq 'q' (pstr (r"uery_")) tid hq2
        rw [e1] at e2
        exact absurd (Option.some.inj e2) (by decide)
    have hg0 : startsWithChars getPre tid = false := by
      cases hg2 : startsWithChars getPre tid with
      | false => rfl
      | true =>
        have e1 := startsWith_head_eq 'c' (pstr (r"reate_")) tid hcreate
        have e2 := startsWith_head_eq 'g' (pstr (r"et_")) tid hg2
        rw [e1] at e2
        exact absurd (Option.some.inj e2) (by decide)
    have n2 : ¬ ((startsWithChars qPre tid && endsWithChars dbSuf tid) = true) := by
      rw [hq0]
      simp
    have n3 : ¬ ((startsWithChars getPre tid &&
        (containsSub sfStr tid || containsSub hsStr tid || containsSub zdStr tid)) = true) := by
      rw [hg0]
      simp
    have hcond : (startsWithChars createPre tid &&
        (containsSub sfStr tid || containsSub hsStr tid || containsSub zdStr tid)) = true := by
      rw [hcreate, hcrm]
      rfl
    simp only [exec_step, if_neg hne, if_neg n2, if_neg n3, hcond, if_true, hreg, hmiss]
    rfl
  · intro env request user st store t out inputs d reg hreg hmiss
    rw [exec_step_test_eq]
    have ht : test_result env = .vdict [(kError, .vstr (pstr (r"Integration test tool not found")))] := by
      simp [test_result, hreg, hmiss]
    rw [ht]
    rfl
  · intro env request user st store t tid out inputs d h1 h2 h3 h4 h5 h6 h7
    have n2 : ¬ ((startsWithChars qPre tid && endsWithChars dbSuf tid) = true) := by
      rw [h2]
      simp
    have n3 : ¬ ((startsWithChars getPre tid &&
        (containsSub sfStr tid || containsSub hsStr tid || containsSub zdStr tid)) = true) := by
      rw [h3]
      simp
    have n4 : ¬ ((startsWithChars createPre tid &&
        (containsSub sfStr tid || containsSub hsStr tid || containsSub zdStr tid)) = true) := by
      rw [h4]
      simp
    simp only [exec_step, if_neg h1, if_neg n2, if_neg n3, if_neg n4, if_neg h5, if_neg h6,
      if_neg h7]

/-- Witness for C5 amended: the registry that resolves nothing, on
concrete database, CRM-get, CRM-create and integration-test steps, and a
concrete step (`create_widget`) matching no dispatch branch. -/
theorem spec_c5_witness :
    exec_step sample_env_reg [] demo_user sample_state []
      ⟨[], pstr (r"query_mysql_database"), pstr (r"out1"), [], none⟩ =
      .ok ⟨{ sample_state with results :=
              [(pstr (r"out1"), .vdict [(kError, .vstr (pstr (r"Database tool ") ++ pstr (r"query_mysql_database") ++ pstr (r" not found")))])] },
           save_plan [] { sample_state with results :=
              [(pstr (r"out1"), .vdict [(kError, .vstr (pstr (r"Database tool ") ++ pstr (r"query_mysql_database") ++ pstr (r" not found")))])] },
           []⟩
    ∧ exec_step sample_env_reg [] demo_user sample_state []
      ⟨[], pstr (r"get_salesforce_contacts"), pstr (r"out1"), [], none⟩ =
      .ok ⟨{ sample_state with results :=
              [(pstr (r"out1"), .vdict [(kError, .vstr (pstr (r"CRM tool ") ++ pstr (r"get_salesforce_contacts") ++ pstr (r" not found")))])] },
           save_plan [] { sample_state with results :=
              [(pstr (r"out1"), .vdict [(kError, .vstr (pstr (r"CRM tool ") ++ pstr (r"get_salesforce_contacts") ++ pstr (r" not found")))])] },
           []⟩
    ∧ exec_step sample_env_reg [] demo_user sample_state []
      ⟨[], pstr (r"create_salesforce_lead"), pstr (r"out1"), [], none⟩ =
      .ok ⟨{ sample_state with results :=
              [(pstr (r"out1"), .vdict [(kError, .vstr (pstr (r"CRM tool ") ++ pstr (r"create_salesforce_lead") ++ pstr (r" not found")))])] },
           save_plan [] { sample_state with results :=
              [(pstr (r"out1"), .vdict [(kError, .vstr (pstr (r"CRM tool ") ++ pstr (r"create_salesforce_lead") ++ pstr (r" not found")))])] },
           []⟩
    ∧ exec_step sample_env_reg [] demo_user sample_state [] ⟨[], idTest, pstr (r"out1"), [], none⟩ =
      .ok ⟨{ sample_state with results :=
              [(pstr (r"out1"), .vdict [(kError, .vstr (pstr (r"Integration test tool not found")))])] },
           save_plan [] { sample_state with results :=
              [(pstr (r"out1"), .vdict [(kError, .vstr (pstr (r"Integration test tool not found")))])] },
           []⟩
    ∧ exec_step sample_env_reg [] demo_user sample_state []
      ⟨[], pstr (r"create_widget"), pstr (r"out2"), [], none⟩ =
      .ok ⟨sample_state, save_plan [] sample_state, []⟩ :=
  ⟨spec_c5_registry_not_found.1 sample_env_reg [] demo_user sample_state []
      [] (pstr (r"query_mysql_database")) (pstr (r"out1")) [] none (fun _ => none)
      rfl rfl rfl rfl,
   spec_c5_registry_not_found.2.1 sample_env_reg [] demo_user sample_state []
      [] (pstr (r"get_salesforce_contacts")) (pstr (r"out1")) [] none (fun _ => none)
      rfl rfl rfl rfl,
   spec_c5_registry_not_found.2.2.1 sample_env_reg [] demo_user sample_state []
      [] (pstr (r"create_salesforce_lead")) (pstr (r"out1")) [] none (fun _ => none)
      rfl rfl rfl rfl,
   spec_c5_registry_not_found.2.2.2.1 sample_env_reg [] demo_user sample_state []
      [] (pstr (r"out1")) [] none (fun _ => none) rfl rfl,
   spec_c5_registry_not_found.2.2.2.2 sample_env_reg [] demo_user sample_state []
      [] (pstr (r"create_widget")) (pstr (r"out2")) [] none
      (by decide) rfl rfl rfl (by decide) (by decide) (by decide)⟩

/-- Every successful executor step leaves the state's plan and user
untouched (only `results` grows) and saves exactly the new state. -/
theorem exec_step_shape (env : Env) (request user : Ident) (st : ExecState) (store : Store)
    (step : Step) (o : StepOut) (h : exec_step env request user st store step = .ok o) :
    o.state.plan = st.plan ∧ o.state.user = st.user ∧ o.store = save_plan store o.state := by
  unfold exec_step at h
  repeat' split at h
  all_goals first
    | exact Except.noConfusion h
    | (injection h with h2; subst h2; exact ⟨rfl, rfl, rfl⟩)

/-- Looking up the key just saved by `save_plan` yields the saved state. -/
theorem storeLookup_save_plan (s : Store) (st : ExecState) :
    storeLookup (save_plan s st) st.plan.id = some st := by
  induction s with
  | nil => simp [save_plan, storeLookup]
  | cons kv rest ih =>
    by_cases h : kv.1 = st.plan.id
    · simp [save_plan, h, storeLookup]
    · simp [save_plan, h, storeLookup, ih]

/-- A successful run of the executor loop preserves the state's plan and
user, and (for a nonempty step list) the store holds the final state
under the plan's identifier. -/
theorem exec_steps_saved (env : Env) (request user : Ident) :
    ∀ (l : List Step) (st : ExecState) (store : Store) (o : StepOut),
      exec_steps env request user st store l = .ok o →
      (o.state.plan = st.plan ∧ o.state.user = st.user)
      ∧ (l ≠ [] → storeLookup o.store st.plan.id = some o.state) := by
  intro l
  induction l with
  | nil =>
    intro st store o h
    injection h with h2
    subst h2
    exact ⟨⟨rfl, rfl⟩, fun hne => absurd rfl hne⟩
  | cons s rest ih =>
    intro st store o h
    simp only [exec_steps] at h
    cases h1 : exec_step env request user st store s with
    | error e => rw [h1] at h; exact Except.noConfusion h
    | ok o1 =>
      rw [h1] at h
      dsimp only at h
      cases h2 : exec_steps env request user o1.state o1.store rest with
      | error e => rw [h2] at h; exact Except.noConfusion h
      | ok r =>
        rw [h2] at h
        dsimp only at h
        injection h with h3
        subst h3
        obtain ⟨hp, hu, hs⟩ := exec_step_shape env request user st store s o1 h1
        obtain ⟨⟨hrp, hru⟩, hlook⟩ := ih o1.state o1.store r h2
        refine ⟨⟨by rw [hrp, hp], by rw [hru, hu]⟩, fun _ => ?_⟩
        cases rest with
        | nil =>
          have h4 : Except.ok (ε := PyErr) (⟨o1.state, o1.store, []⟩ : StepOut) = .ok r := h2
          injection h4 with h5
          rw [← h5, hs, ← hp]
          exact storeLookup_save_plan store o1.state
        | cons s2 rest2 =>
          have h6 := hlook (by simp)
          rw [hp] at h6
          exact h6

/-- The state `run_plan` leaves in the store under the run's plan
identifier carries the acting user both as the plan-level owner and as
the state-level user — the configuration assumed by the ownership
theorems below. -/
theorem run_plan_saved_state_owner (env : Env) (request user : Ident) (store : Store) (o : RunOut)
    (h : run_plan env request user store = .ok o) :
    (storeLookup o.store env.plan_id).map (fun s => (s.plan.user, s.user)) =
      some (.vdict user, .vdict user) := by
  unfold run_plan at h
  dsimp only at h
  cases hx : exec_steps env request user
      { plan := { id := env.plan_id, steps := build_fallback_steps request, user := .vdict user,
                  query := pyGetD request kQuery (.vstr (pstr (r"Analyze data and send summary"))) },
        user := .vdict user, results := [] }
      store (build_fallback_steps request) with
  | error e => rw [hx] at h; exact Except.noConfusion h
  | ok o1 =>
    rw [hx] at h
    injection h with h2
    subst h2
    obtain ⟨⟨hp, hu⟩, hlook⟩ := exec_steps_saved env request user (build_fallback_steps request)
      _ store o1 hx
    have h6 := hlook (by simp [build_fallback_steps])
    rw [h6]
    simp [hp, hu]

/-- C8: for states as `run_plan` stores them (plan-level and state-level
user are the same identity dict), `getById` returns the stored Execution
State exactly when the caller's username equals the stored owner's
username, and otherwise returns the same not-found value (`None`) that it
returns for a plan identifier with no stored state — so a non-owner
cannot distinguish an existing plan from a missing one (db.py lines
7-18). -/
theorem spec_c8_ownership_hiding
    (store : Store) (pid : Nat) (st : ExecState) (fu caller : List (Str × Val)) (w cw : Str)
    (hfind : storeLookup store pid = some st)
    (hplan : st.plan.user = .vdict fu)
    (hstate : st.user = .vdict fu)
    (hw : lookupField fu kUsername = some (.vstr w))
    (hc : lookupField caller kUsername = some (.vstr cw)) :
    (cw = w → get_plan_by_id store pid caller = .ok (some st))
    ∧ (cw ≠ w → get_plan_by_id store pid caller = .ok none)
    ∧ (∀ pid2, storeLookup store pid2 = none → get_plan_by_id store pid2 caller = .ok none) := by
  have howner : plan_owner_of st = .vstr w := by
    simp [plan_owner_of, hplan, hw]
  have hsname : state_user_name st = .ok (.vstr w) := by
    simp [state_user_name, hstate, hw]
  refine ⟨?_, ?_, ?_⟩
  · intro he
    subst he
    simp [get_plan_by_id, hfind, hc, howner, pyEqVal]
  · intro hne
    have heq : pyEqVal (Val.vstr w) (Val.vstr cw) = false := by
      simp [pyEqVal]
      exact fun h => hne h.symm
    simp [get_plan_by_id, hfind, hc, howner, hsname, heq]
  · intro pid2 h2
    simp [get_plan_by_id, h2]

/-- Witness for C8: alice's stored run is visible to alice, hidden from
bob, and a missing identifier is equally `None`. -/
theorem spec_c8_witness :
    get_plan_by_id [(1, sample_state)] 1 demo_user = .ok (some sample_state)
    ∧ get_plan_by_id [(1, sample_state)] 1 [(kUsername, .vstr (pstr (r"bob")))] = .ok none
    ∧ get_plan_by_id [(1, sample_state)] 2 demo_user = .ok none := by
  have h := spec_c8_ownership_hiding [(1, sample_state)] 1 sample_state demo_user demo_user
    (pstr (r"demo_user")) (pstr (r"demo_user")) rfl rfl rfl rfl rfl
  have h2 := spec_c8_ownership_hiding [(1, sample_state)] 1 sample_state demo_user
    [(kUsername, .vstr (pstr (r"bob")))] (pstr (r"demo_user")) (pstr (r"bob")) rfl rfl rfl rfl rfl
  exact ⟨h.1 rfl, h2.2.1 (by decide), h.2.2 2 rfl⟩

/-- A stored state matching either ownership criterion passes the
per-state check of `list_all_plans` with `True` (db.py lines 22-29). -/
theorem list_check_true (cn : Val) (st : ExecState)
    (h : pyEqVal (plan_owner_of st) cn = true ∨
      ∃ sn, state_user_name st = .ok sn ∧ pyEqVal sn cn = true) :
    list_check cn st = .ok true := by
  rcases h with h | ⟨sn, hsn, hm⟩
  · simp [list_check, h]
  · by_cases ho : pyEqVal (plan_owner_of st) cn = true
    · simp [list_check, ho]
    · simp [list_check, ho, hsn, hm]

/-- Completeness of `list_all_plans`: whenever listing succeeds, every
stored state whose plan-level owner or state-level user matches the
caller appears in the output. -/
theorem list_all_plans_complete (caller : Ident) (cn : Val)
    (h : lookupField caller kUsername = some cn) :
    ∀ (store : Store) (out : List ExecState),
      list_all_plans store caller = .ok out →
      ∀ (pid : Nat) (st : ExecState), (pid, st) ∈ store →
      (pyEqVal (plan_owner_of st) cn = true ∨
        ∃ sn, state_user_name st = .ok sn ∧ pyEqVal sn cn = true) →
      st ∈ out := by
  intro store
  induction store with
  | nil =>
    intro out _ pid st hmem _
    simp at hmem
  | cons kv rest ih =>
    intro out hlist pid st hmem hcrit
    simp only [list_all_plans, h] at hlist
    cases hchk : list_check cn kv.2 with
    | error e => rw [hchk] at hlist; exact Except.noConfusion hlist
    | ok b =>
      rw [hchk] at hlist
      dsimp only at hlist
      cases hrec : list_all_plans rest caller with
      | error e => rw [hrec] at hlist; exact Except.noConfusion hlist
      | ok tail =>
        rw [hrec] at hlist
        dsimp only at hlist
        injection hlist with h2
        subst h2
        rcases List.mem_cons.mp hmem with heq | hmem2
        · obtain rfl : st = kv.2 := congrArg Prod.snd heq
          have htrue := list_check_true cn kv.2 hcrit
          rw [htrue] at hchk
          injection hchk with hb
          subst hb
          exact List.mem_cons_self _ _
        · have hin := ih tail hrec pid st hmem2 hcrit
          cases b
          · exact hin
          · exact List.mem_cons_of_mem kv.2 hin

/-- C10: `getById` and `listAll` grant access when the caller's username
equals EITHER the owning plan's user username OR the Execution State's
own user username — the state-level fallback applies whenever the
plan-owner comparison fails, whether the plan carries a readable
different owner or no readable owner at all; in particular a stored
state whose plan has no readable owner (`plan.user` is `None`) is still
returned to a caller matching the state-level user, and a successful
listing contains every stored state matching either criterion (db.py
lines 7-18 and 20-30). -/
theorem spec_c10_dual_ownership :
    (∀ (store : Store) (pid : Nat) (st : ExecState) (caller : Ident) (cn : Val),
      storeLookup store pid = some st →
      lookupField caller kUsername = some cn →
      pyEqVal (plan_owner_of st) cn = true →
      get_plan_by_id store pid caller = .ok (some st))
    ∧ (∀ (store : Store) (pid : Nat) (st : ExecState) (caller : Ident) (cn sn : Val),
      storeLookup store pid = some st →
      lookupField caller kUsername = some cn →
      pyEqVal (plan_owner_of st) cn = false →
      state_user_name st = .ok sn →
      pyEqVal sn cn = true →
      get_plan_by_id store pid caller = .ok (some st))
    ∧ (∀ (store : Store) (pid : Nat) (st : ExecState) (caller fs : List (Str × Val)) (cw : Str),
      storeLookup store pid = some st →
      st.plan.user = .vnone →
      st.user = .vdict fs →
      lookupField fs kUsername = some (.vstr cw) →
      lookupField caller kUsername = some (.vstr cw) →
      get_plan_by_id store pid caller = .ok (some st))
    ∧ (∀ (store : Store) (caller : Ident) (cn : Val) (out : List ExecState),
      lookupField caller kUsername = some cn →
      list_all_plans store caller = .ok out →
      ∀ (pid : Nat) (st : ExecState), (pid, st) ∈ store →
      (pyEqVal (plan_owner_of st) cn = true ∨
        ∃ sn, state_user_name st = .ok sn ∧ pyEqVal sn cn = true) →
      st ∈ out) := by
  refine ⟨?_, ?_, ?_, ?_⟩
  · intro store pid st caller cn hfind hc hown
    simp [get_plan_by_id, hfind, hc, hown]
  · intro store pid st caller cn sn hfind hc hown hsname hm
    simp [get_plan_by_id, hfind, hc, hown, hsname, hm]
  · intro store pid st caller fs cw hfind hplan hstate hfs hc
    have howner : plan_owner_of st = .vnone := by
      simp [plan_owner_of, hplan]
    have hsname : state_user_name st = .ok (.vstr cw) := by
      simp [state_user_name, hstate, hfs]
    simp [get_plan_by_id, hfind, hc, howner, hsname, pyEqVal]
  · intro store caller cn out hc hlist pid st hmem hcrit
    exact list_all_plans_complete caller cn hc store out hlist pid st hmem hcrit

/-- Witness for C10: the demo user retrieves an owner-matched state, a
state whose plan names a different owner (alice) but whose state-level
user matches, and a state with no readable plan owner; and a successful
two-state listing contains the state-level-matched state. -/
theorem spec_c10_witness :
    get_plan_by_id [(1, sample_state)] 1 demo_user = .ok (some sample_state)
    ∧ get_plan_by_id [(3, sample_state_other_owner)] 3 demo_user =
        .ok (some sample_state_other_owner)
    ∧ get_plan_by_id [(2, sample_state_no_owner)] 2 demo_user = .ok (some sample_state_no_owner)
    ∧ sample_state_other_owner ∈ ([sample_state, sample_state_other_owner] : List ExecState) :=
  ⟨spec_c10_dual_ownership.1 [(1, sample_state)] 1 sample_state demo_user
      (.vstr (pstr (r"demo_user"))) rfl rfl rfl,
   spec_c10_dual_ownership.2.1 [(3, sample_state_other_owner)] 3 sample_state_other_owner
      demo_user (.vstr (pstr (r"demo_user"))) (.vstr (pstr (r"demo_user"))) rfl rfl rfl rfl rfl,
   spec_c10_dual_ownership.2.2.1 [(2, sample_state_no_owner)] 2 sample_state_no_owner
      demo_user demo_user (pstr (r"demo_user")) rfl rfl rfl rfl rfl,
   spec_c10_dual_ownership.2.2.2 [(1, sample_state), (3, sample_state_other_owner)] demo_user
      (.vstr (pstr (r"demo_user"))) [sample_state, sample_state_other_owner] rfl rfl
      3 sample_state_other_owner
      (List.mem_cons_of_mem (1, sample_state) (List.mem_cons_self _ _))
      (Or.inr ⟨.vstr (pstr (r"demo_user")), rfl, rfl⟩)⟩

end Workbench
